import Mathlib

/-!
Shallow embedding of `src/exp2/script.py` from the toon-lab repository: a
command-line harness that converts a JSON dataset to the TOON format, sends
the same question to an LLM API once per encoding, and compares the two
responses and latencies.

Pure fragments of the script (prompt construction, verdict computation,
output-path derivation, model-list filtering, argument validation) are
translated directly.  Effectful fragments (the network call, the clock,
the subprocess, stdin) are modelled by explicit outcome parameters, a
rational-valued wall clock, and event traces, so every definition is
executable and every property is settled against concrete inputs.
-/

namespace ToonLab

/-- ASCII whitespace characters recognised by Python `str.strip()` with no
argument (the non-ASCII Unicode whitespace cases are outside the model). -/
def isPySpace (c : Char) : Bool :=
  c = ' ' || c = '\t' || c = '\n' || c = '\r' || c = '\x0b' || c = '\x0c'

/-- Python `str.strip()`: remove leading and trailing whitespace. -/
def pyStrip (s : String) : String :=
  ⟨((s.data.dropWhile isPySpace).reverse.dropWhile isPySpace).reverse⟩

/-- Python `str.lower()`: lower-case every character (ASCII case mapping;
the non-ASCII Unicode case mappings are outside the model). -/
def pyLower (s : String) : String :=
  ⟨s.data.map Char.toLower⟩

/-- Outcome of one call to `client.models.generate_content` as observed by
`query_llm` (script lines 131-144): the call either raises an exception whose
`str(e)` is `msg`, or it returns a response object whose `.text` attribute is
`text` (a `None` text is modelled as `none`).  `dur` is the wall-clock time
the call consumes, which is also what `end_time - start_time` measures. -/
inductive ApiOutcome where
  | raises (msg : String) (dur : ℚ)
  | returns (text : Option String) (dur : ℚ)

/-- Wall-clock duration consumed by the API call. -/
def ApiOutcome.dur : ApiOutcome → ℚ
  | .raises _ d => d
  | .returns _ d => d

/-- The f-string prompt template of `query_llm` (script lines 122-129). -/
def build_prompt (data_content data_format question : String) : String :=
  "You are a data analyst. I will provide you with data in " ++ data_format ++
    " format.\n\nDATA:\n" ++ data_content ++ "\n\nTASK: " ++ question ++
    "\n\nPlease analyze the data and provide a precise answer. Be specific and include all relevant details."

/-- The `str()` of the `AttributeError` CPython raises for `None.strip()`. -/
def noneStripMsg : String := "\x27NoneType\x27 object has no attribute \x27strip\x27"

/-- `TOONParsingTest.query_llm` (script lines 116-144).  The environment is a
function `api` from the prompt sent to the outcome of the network call.  The
whole call, including `response.text.strip()`, sits inside the `try` block, so
a raising call and a `None` text both produce `("Error: " ++ str(e), 0.0)` and
a successful call produces the stripped text with its measured duration. -/
def query_llm (api : String → ApiOutcome) (data_content data_format question : String) :
    String × ℚ :=
  match api (build_prompt data_content data_format question) with
  | .raises msg _ => ("Error: " ++ msg, 0)
  | .returns none _ => ("Error: " ++ noneStripMsg, 0)
  | .returns (some t) d => (pyStrip t, d)

/-- The dictionary returned by `TOONParsingTest.run_test` (script lines
169-175): the question and the response/time pair of each leg. -/
structure TestResults where
  question : String
  json_response : String
  json_time : ℚ
  toon_response : String
  toon_time : ℚ
deriving DecidableEq

/-- The argument of `time.sleep` between the two dispatches (script line 162). -/
def INTER_CALL_DELAY : ℚ := 2

/-- `TOONParsingTest.run_test` (script lines 146-175) with its wall clock made
explicit: starting at time `t0`, the JSON-format dispatch starts immediately
and consumes the duration of its API call, the process then sleeps
`INTER_CALL_DELAY` seconds, and the TOON-format dispatch starts.  Returns the
assembled result record together with the start times of the two dispatches. -/
def run_test (api : String → ApiOutcome) (json_content toon_content question : String)
    (t0 : ℚ) : TestResults × ℚ × ℚ :=
  let jsonStart := t0
  let json_leg := query_llm api json_content "JSON" question
  let afterJson := jsonStart + (api (build_prompt json_content "JSON" question)).dur
  let toonStart := afterJson + INTER_CALL_DELAY
  let toon_leg := query_llm api toon_content "TOON" question
  ({ question := question
     json_response := json_leg.1
     json_time := json_leg.2
     toon_response := toon_leg.1
     toon_time := toon_leg.2 },
   jsonStart, toonStart)

/-- The identical/differ verdict printed by `display_results`. -/
inductive MatchVerdict where
  | IDENTICAL
  | DIFFER
deriving DecidableEq

/-- Script lines 200-204: `json_response.lower() == toon_response.lower()`. -/
def response_match_verdict (json_response toon_response : String) : MatchVerdict :=
  if pyLower json_response = pyLower toon_response then .IDENTICAL else .DIFFER

/-- The latency verdict printed by `display_results`. -/
inductive PerfVerdict where
  | SIMILAR
  | FASTER_TOON
  | FASTER_JSON
deriving DecidableEq

/-- The threshold `0.5` of script line 209. -/
def SIMILAR_THRESHOLD : ℚ := 1/2

/-- Script lines 207-214: `time_diff = json_time - toon_time`; `SIMILAR` when
`abs(time_diff) < 0.5`, else TOON faster when `time_diff > 0`, else JSON. -/
def performance_verdict (json_time toon_time : ℚ) : PerfVerdict :=
  let time_diff := json_time - toon_time
  if |time_diff| < SIMILAR_THRESHOLD then .SIMILAR
  else if time_diff > 0 then .FASTER_TOON
  else .FASTER_JSON

/-- One entry of `client.models.list()` as the discovery loop reads it:
`name` is `none` when the object has no `name` attribute, and
`supported_generation_methods` is `none` when `getattr` falls back to `[]`. -/
structure ModelInfo where
  name : Option String
  supported_generation_methods : Option (List String)
deriving DecidableEq

/-- The filtering loop of script lines 39-44: collect the name of every model
that has a `name` attribute containing `"gemini"` (case-insensitively) and
whose generation methods include `"generateContent"` or are empty/absent. -/
def gemini_models (models : List ModelInfo) : List String :=
  models.filterMap fun m =>
    match m.name with
    | none => none
    | some n =>
      if "gemini".data <:+: (pyLower n).data then
        match m.supported_generation_methods with
        | none => some n
        | some methods =>
          if methods.contains "generateContent" || methods.isEmpty then some n else none
      else none

/-- Outcome of the `client.models.list()` call: the call raises, or it
returns a list of model entries. -/
inductive Discovery where
  | raises
  | returns (models : List ModelInfo)

/-- The hard-coded fallback identifier of script lines 51 and 55. -/
def FALLBACK_MODEL : String := "gemini-pro"

/-- The module-level resolution of `AVAILABLE_MODEL` (script lines 33-55):
first matching gemini model if any; otherwise `models[0].name` when the list
is non-empty (an absent `name` attribute raises inside the `try` and lands in
the fallback); otherwise, and on any discovery exception, `"gemini-pro"`. -/
def resolve_available_model : Discovery → String
  | .raises => FALLBACK_MODEL
  | .returns models =>
    match gemini_models models with
    | n :: _ => n
    | [] =>
      match models with
      | [] => FALLBACK_MODEL
      | m :: _ =>
        match m.name with
        | some n => n
        | none => FALLBACK_MODEL

/-- A `pathlib.Path` as the script uses it: its parent directory, its stem,
and its suffix (`stem ++ suffix` is the file name). -/
structure PyPath where
  parent : String
  stem : String
  suffix : String
deriving DecidableEq

/-- The file-name component of the path. -/
def PyPath.fileName (p : PyPath) : String := p.stem ++ p.suffix

/-- The rendering `str(path)` of the path. -/
def PyPath.render (p : PyPath) : String := p.parent ++ "/" ++ p.fileName

/-- Script line 78: `output_name = json_file_path.stem + "_output.toon"`. -/
def toon_output_name (p : PyPath) : String := p.stem ++ "_output.toon"

/-- Script line 79: `toon_file_path = json_file_path.parent / output_name`. -/
def toon_file_path (p : PyPath) : String := p.parent ++ "/" ++ toon_output_name p

/-- The subprocess argument vector of script line 84. -/
def converter_argv (p : PyPath) : List String :=
  ["npx", "@toon-format/cli", p.render, "-o", toon_file_path p]

/-- The two exceptions `TOONParsingTest.__init__` can raise. -/
inductive InitError where
  | fileNotFound
  | valueError
deriving DecidableEq

/-- The validation of `TOONParsingTest.__init__` (script lines 61-71):
`FileNotFoundError` when the path does not exist, then `ValueError` when the
suffix is not exactly `".json"`; `none` means construction succeeds. -/
def TOONParsingTest_init (pathExists : Bool) (p : PyPath) : Option InitError :=
  if !pathExists then some .fileNotFound
  else if !(p.suffix == ".json") then some .valueError
  else none

/-- The observable milestones of the `try` block of `main` (script lines
281-297), with `run_test` expanded into its three externally visible
effects (JSON dispatch, sleep, TOON dispatch). -/
inductive MainEv where
  | testConstructed
  | converterInvoked
  | contentsLoaded
  | jsonDispatched
  | sleptBetween
  | toonDispatched
  | resultsDisplayed
  | resultsSaved
deriving DecidableEq

/-- The straight-line order of the milestones in the `try` block. -/
def main_try_events : List MainEv :=
  [.testConstructed, .converterInvoked, .contentsLoaded, .jsonDispatched,
   .sleptBetween, .toonDispatched, .resultsDisplayed, .resultsSaved]

/-- How the `try` block of `main` ends: it runs to completion, or a
`KeyboardInterrupt` arrives before milestone `beforeStep`, or some other
exception is raised before milestone `beforeStep`. -/
inductive TryOutcome where
  | completes
  | interrupted (beforeStep : Fin 8)
  | failsAt (beforeStep : Fin 8)

/-- The `try`/`except` of `main` (script lines 281-304): the milestones that
actually happen, and the process exit status — `sys.exit(0)` on
`KeyboardInterrupt`, `sys.exit(1)` on any other exception, and a normal
return (status 0) on completion. -/
def main_try : TryOutcome → List MainEv × Nat
  | .completes => (main_try_events, 0)
  | .interrupted i => (main_try_events.take i.val, 0)
  | .failsAt i => (main_try_events.take i.val, 1)

/-- The argument-handling prefix of `main` (script lines 251-278), before any
`TOONParsingTest` is constructed: `sys.exit(1)` when no file argument is
given; the joined command-line question when question tokens are present;
otherwise the stripped interactive input, with `sys.exit(1)` when it is
empty.  `.error c` models `sys.exit(c)`, `.ok q` the accepted question. -/
def main_pre (argv : List String) (stdinLine : String) : Except Nat String :=
  if argv.length < 2 then .error 1
  else if argv.length ≥ 3 then .ok (String.intercalate " " (argv.drop 2))
  else
    let question := pyStrip stdinLine
    if question = "" then .error 1 else .ok question

/-- What one whole run of `main` does, at the granularity the claims need:
its exit status, how many times the converter subprocess was started, and
how many `TOONParsingTest` objects were constructed. -/
structure MainRun where
  exitStatus : Nat
  converterInvocations : Nat
  testsConstructed : Nat
deriving DecidableEq

/-- `main` (script lines 251-304): the argument prefix followed, when it
accepts a question, by the `try` block with outcome `body`. -/
def main_model (argv : List String) (stdinLine : String) (body : TryOutcome) : MainRun :=
  match main_pre argv stdinLine with
  | .error c => { exitStatus := c, converterInvocations := 0, testsConstructed := 0 }
  | .ok _ =>
    let r := main_try body
    { exitStatus := r.2
      converterInvocations := r.1.count .converterInvoked
      testsConstructed := r.1.count .testConstructed }

/-- A stub environment for concrete runs: every API call succeeds with text
`"ok"` after one second. -/
def apiStub : String → ApiOutcome := fun _ => ApiOutcome.returns (some "ok") 1

/-- A stub environment whose API calls succeed but return a response with a
`None` text attribute. -/
def apiNoneText : String → ApiOutcome := fun _ => ApiOutcome.returns none 3

/-- A concrete model listing entry that is not eligible under any reading: its
name does not contain `"gemini"` and its methods do not include
`"generateContent"`. -/
def ineligibleOnlyModel : ModelInfo :=
  { name := some "plain-model", supported_generation_methods := some ["embedContent"] }

/-- Helper for C9: the original string splits as a whitespace prefix, the
stripped string, and a whitespace suffix, so `pyStrip` only ever removes
leading and trailing whitespace. -/
theorem pyStrip_decomposition (s : String) :
    ∃ pre suf : List Char,
      s.data = pre ++ (pyStrip s).data ++ suf
      ∧ (∀ c ∈ pre, isPySpace c = true)
      ∧ (∀ c ∈ suf, isPySpace c = true) := by
  have key : s.data.dropWhile isPySpace
      = ((s.data.dropWhile isPySpace).reverse.dropWhile isPySpace).reverse
        ++ ((s.data.dropWhile isPySpace).reverse.takeWhile isPySpace).reverse := by
    rw [← List.reverse_append, List.takeWhile_append_dropWhile, List.reverse_reverse]
  refine ⟨s.data.takeWhile isPySpace,
    ((s.data.dropWhile isPySpace).reverse.takeWhile isPySpace).reverse, ?_, ?_, ?_⟩
  · show s.data
        = s.data.takeWhile isPySpace
          ++ ((s.data.dropWhile isPySpace).reverse.dropWhile isPySpace).reverse
          ++ ((s.data.dropWhile isPySpace).reverse.takeWhile isPySpace).reverse
    rw [List.append_assoc, ← key, List.takeWhile_append_dropWhile]
  · intro c hc
    exact List.mem_takeWhile_imp hc
  · intro c hc
    rw [List.mem_reverse] at hc
    exact List.mem_takeWhile_imp hc

/-- Helper for C9: the stripped string never starts with whitespace. -/
theorem pyStrip_head_not_space (s : String) (c : Char)
    (h : (pyStrip s).data.head? = some c) : isPySpace c = false := by
  have e : (pyStrip s).data
      = ((s.data.dropWhile isPySpace).reverse.dropWhile isPySpace).reverse := rfl
  rw [e, List.head?_reverse] at h
  obtain ⟨u, hu⟩ := List.dropWhile_suffix (l := (s.data.dropWhile isPySpace).reverse) isPySpace
  have h2 : (s.data.dropWhile isPySpace).reverse.getLast? = some c := by
    rw [← hu, List.getLast?_append, h]
    rfl
  rw [List.getLast?_reverse] at h2
  have h4 := List.head?_dropWhile_not isPySpace s.data
  rw [h2] at h4
  exact h4

/-- Helper for C9: the stripped string never ends with whitespace. -/
theorem pyStrip_getLast_not_space (s : String) (c : Char)
    (h : (pyStrip s).data.getLast? = some c) : isPySpace c = false := by
  have e : (pyStrip s).data
      = ((s.data.dropWhile isPySpace).reverse.dropWhile isPySpace).reverse := rfl
  rw [e, List.getLast?_reverse] at h
  have h4 := List.head?_dropWhile_not isPySpace (s.data.dropWhile isPySpace).reverse
  rw [h] at h4
  exact h4

/-- C1: `run_test` always returns a complete record carrying the question and
both response/time pairs, each pair being exactly the corresponding
`query_llm` result; and whenever the underlying API call raises, the
`query_llm` result degrades to the pair (error string, 0) instead of
propagating the exception, so the run still completes. -/
theorem run_test_record_complete (api : String → ApiOutcome)
    (json_content toon_content question : String) (t0 : ℚ) :
    ((run_test api json_content toon_content question t0).1.question = question
      ∧ ((run_test api json_content toon_content question t0).1.json_response,
          (run_test api json_content toon_content question t0).1.json_time)
            = query_llm api json_content "JSON" question
      ∧ ((run_test api json_content toon_content question t0).1.toon_response,
          (run_test api json_content toon_content question t0).1.toon_time)
            = query_llm api toon_content "TOON" question)
    ∧ (∀ msg d, api (build_prompt json_content "JSON" question) = .raises msg d →
        query_llm api json_content "JSON" question = ("Error: " ++ msg, 0))
    ∧ (∀ msg d, api (build_prompt toon_content "TOON" question) = .raises msg d →
        query_llm api toon_content "TOON" question = ("Error: " ++ msg, 0)) := by
  refine ⟨⟨rfl, rfl, rfl⟩, ?_, ?_⟩ <;> · intro msg d h; simp [query_llm, h]

/-- C2: the JSON dispatch starts strictly before the TOON dispatch, the TOON
start time minus the JSON start time is at least the configured delay, the
TOON dispatch starts exactly one delay after the JSON dispatch ends, and the
configured delay is 2. -/
theorem run_test_schedule_delay (api : String → ApiOutcome)
    (json_content toon_content question : String) (t0 : ℚ)
    (hdur : 0 ≤ (api (build_prompt json_content "JSON" question)).dur) :
    (run_test api json_content toon_content question t0).2.1 <
        (run_test api json_content toon_content question t0).2.2
    ∧ INTER_CALL_DELAY ≤ (run_test api json_content toon_content question t0).2.2
        - (run_test api json_content toon_content question t0).2.1
    ∧ (run_test api json_content toon_content question t0).2.2
        = (run_test api json_content toon_content question t0).2.1
          + (api (build_prompt json_content "JSON" question)).dur + INTER_CALL_DELAY
    ∧ INTER_CALL_DELAY = 2 := by
  have hd : INTER_CALL_DELAY = 2 := rfl
  simp only [run_test]
  exact ⟨by rw [hd] at *; linarith, by rw [hd] at *; linarith, trivial, hd⟩

/-- C2 witness: the schedule facts at a concrete environment whose JSON call
lasts one second. -/
theorem run_test_schedule_delay_witness :
    (run_test apiStub "dc" "tc" "q" 0).2.1 < (run_test apiStub "dc" "tc" "q" 0).2.2
    ∧ INTER_CALL_DELAY ≤ (run_test apiStub "dc" "tc" "q" 0).2.2
        - (run_test apiStub "dc" "tc" "q" 0).2.1
    ∧ (run_test apiStub "dc" "tc" "q" 0).2.2
        = (run_test apiStub "dc" "tc" "q" 0).2.1
          + (apiStub (build_prompt "dc" "JSON" "q")).dur + INTER_CALL_DELAY
    ∧ INTER_CALL_DELAY = 2 :=
  run_test_schedule_delay apiStub "dc" "tc" "q" 0 (by norm_num [apiStub, ApiOutcome.dur])

/-- C3: the latency verdict is SIMILAR exactly when the absolute time
difference is strictly below 1/2; otherwise TOON is reported faster when the
difference is positive and JSON when it is negative; a difference of exactly
0.50 is non-SIMILAR and one of 0.49 is SIMILAR. -/
theorem performance_verdict_spec (json_time toon_time : ℚ) :
    (performance_verdict json_time toon_time = .SIMILAR ↔ |json_time - toon_time| < 1/2)
    ∧ (1/2 ≤ |json_time - toon_time| → 0 < json_time - toon_time →
        performance_verdict json_time toon_time = .FASTER_TOON)
    ∧ (1/2 ≤ |json_time - toon_time| → json_time - toon_time < 0 →
        performance_verdict json_time toon_time = .FASTER_JSON)
    ∧ performance_verdict (1/2) 0 = .FASTER_TOON
    ∧ performance_verdict (49/100) 0 = .SIMILAR := by
  refine ⟨?_, ?_, ?_, ?_, ?_⟩
  · simp only [performance_verdict, SIMILAR_THRESHOLD]
    split_ifs with h1 h2 <;> simp_all
  · intro h h2
    simp only [performance_verdict, SIMILAR_THRESHOLD]
    split_ifs with h1 h3 <;> first | rfl | (exfalso; linarith)
  · intro h h2
    simp only [performance_verdict, SIMILAR_THRESHOLD]
    split_ifs with h1 h3 <;> first | rfl | (exfalso; linarith)
  · simp only [performance_verdict, SIMILAR_THRESHOLD, sub_zero]
    rw [abs_of_nonneg (by norm_num : (0:ℚ) ≤ 1/2)]
    norm_num
  · simp only [performance_verdict, SIMILAR_THRESHOLD, sub_zero]
    rw [abs_of_nonneg (by norm_num : (0:ℚ) ≤ 49/100)]
    norm_num

/-- C4: the match verdict is IDENTICAL exactly when the two responses are
equal after lowercasing, and DIFFER exactly otherwise; in particular "Yes"
versus "yes" is IDENTICAL and "Yes." versus "Yes" is DIFFER. -/
theorem response_match_verdict_spec (json_response toon_response : String) :
    (response_match_verdict json_response toon_response = .IDENTICAL
      ↔ pyLower json_response = pyLower toon_response)
    ∧ (response_match_verdict json_response toon_response = .DIFFER
      ↔ pyLower json_response ≠ pyLower toon_response)
    ∧ response_match_verdict "Yes" "yes" = .IDENTICAL
    ∧ response_match_verdict "Yes." "Yes" = .DIFFER := by
  refine ⟨?_, ?_, by decide, by decide⟩ <;>
  · simp only [response_match_verdict]
    split_ifs with h <;> simp_all

/-- C5 counterexample: a listing with a single model that is not eligible
(name without "gemini", no generateContent support) yields that model's own
name, not the statically known fallback — refuting the claim that every
no-eligible-model discovery produces the hard-coded fallback identifier. -/
theorem resolve_available_model_not_fallback_cex :
    gemini_models [ineligibleOnlyModel] = []
    ∧ resolve_available_model (.returns [ineligibleOnlyModel]) = "plain-model"
    ∧ resolve_available_model (.returns [ineligibleOnlyModel]) ≠ FALLBACK_MODEL := by
  exact ⟨by decide, by decide, by decide⟩

/-- C5 (amended): the resolver never fails the process; when discovery raises
or returns an empty list it yields the hard-coded fallback; when some model
passes the gemini/generateContent filter it yields the first such name; and
when the listing is non-empty but no model passes the filter it yields the
first listed model's name (or the hard-coded fallback if that model has no
name attribute). -/
theorem resolve_available_model_spec :
    resolve_available_model .raises = FALLBACK_MODEL
    ∧ resolve_available_model (.returns []) = FALLBACK_MODEL
    ∧ (∀ models n rest, gemini_models models = n :: rest →
        resolve_available_model (.returns models) = n)
    ∧ (∀ m rest, gemini_models (m :: rest) = [] →
        resolve_available_model (.returns (m :: rest))
          = match m.name with | some n => n | none => FALLBACK_MODEL) := by
  refine ⟨rfl, rfl, ?_, ?_⟩
  · intro models n rest h
    simp [resolve_available_model, h]
  · intro m rest h
    simp [resolve_available_model, h]

/-- C6: a KeyboardInterrupt inside the try block of main exits with status 0
and leaves the milestones before the interrupt; no interrupted run ever
reaches the save step, so no result file is produced; and in every run the
result file is written only after both dispatches and the report. -/
theorem interrupted_run_spec :
    (∀ i : Fin 8, main_try (.interrupted i) = (main_try_events.take i.val, 0))
    ∧ (∀ i : Fin 8, MainEv.resultsSaved ∉ (main_try (.interrupted i)).1)
    ∧ (∀ o : TryOutcome, MainEv.resultsSaved ∈ (main_try o).1 →
        MainEv.jsonDispatched ∈ (main_try o).1 ∧ MainEv.toonDispatched ∈ (main_try o).1
        ∧ MainEv.resultsDisplayed ∈ (main_try o).1) := by
  refine ⟨fun i => rfl, by decide, ?_⟩
  intro o
  cases o with
  | completes => decide
  | interrupted i => revert i; decide
  | failsAt i => revert i; decide

/-- C7: with a file argument, no question tokens, and an interactive answer
that strips to the empty string, main exits with status 1 without invoking
the converter subprocess and without constructing a TOONParsingTest. -/
theorem empty_question_exits_before_converter (prog file stdinLine : String)
    (body : TryOutcome) (h : pyStrip stdinLine = "") :
    main_model [prog, file] stdinLine body
      = { exitStatus := 1, converterInvocations := 0, testsConstructed := 0 } := by
  simp [main_model, main_pre, h]

/-- C7 witness: a concrete run with whitespace-only interactive input. -/
theorem empty_question_exits_before_converter_witness :
    main_model ["script.py", "data.json"] " \t " TryOutcome.completes
      = { exitStatus := 1, converterInvocations := 0, testsConstructed := 0 } :=
  empty_question_exits_before_converter "script.py" "data.json" " \t " .completes (by decide)

/-- C8: the converter output path is the input's parent directory joined with
the input stem plus the fixed suffix "_output.toon", the converter argument
vector has the shape input-path, "-o", output-path, and no run invokes the
converter more than once. -/
theorem converter_invocation_spec (p : PyPath) :
    toon_file_path p = p.parent ++ "/" ++ (p.stem ++ "_output.toon")
    ∧ converter_argv p
        = ["npx", "@toon-format/cli", p.render, "-o", toon_file_path p]
    ∧ (∀ o : TryOutcome, ((main_try o).1.count .converterInvoked) ≤ 1) := by
  refine ⟨rfl, rfl, ?_⟩
  intro o
  cases o with
  | completes => decide
  | interrupted i => revert i; decide
  | failsAt i => revert i; decide

/-- C9: when the API call itself succeeds, query_llm is still total: a
response with a None text degrades to the pair (error string, 0) because the
strip call raises inside the protected region, and a response with text
yields the text stripped of leading and trailing whitespace — where
stripping provably removes only whitespace and leaves a string that neither
starts nor ends with whitespace. -/
theorem query_llm_text_postprocessing (api : String → ApiOutcome)
    (data_content data_format question : String) (text : Option String) (d : ℚ)
    (h : api (build_prompt data_content data_format question) = .returns text d) :
    query_llm api data_content data_format question
      = (match text with
         | none => ("Error: " ++ noneStripMsg, 0)
         | some t => (pyStrip t, d))
    ∧ (∀ t : String, ∃ pre suf : List Char,
        t.data = pre ++ (pyStrip t).data ++ suf
        ∧ (∀ c ∈ pre, isPySpace c = true) ∧ (∀ c ∈ suf, isPySpace c = true))
    ∧ (∀ (t : String) (c : Char), (pyStrip t).data.head? = some c → isPySpace c = false)
    ∧ (∀ (t : String) (c : Char), (pyStrip t).data.getLast? = some c → isPySpace c = false) := by
  refine ⟨?_, fun t => pyStrip_decomposition t, fun t c => pyStrip_head_not_space t c,
    fun t c => pyStrip_getLast_not_space t c⟩
  cases text with
  | none => simp [query_llm, h]
  | some t => simp [query_llm, h]

/-- C9 witness: a concrete environment whose API call succeeds with a None
text attribute still produces the degraded error pair. -/
theorem query_llm_text_postprocessing_witness :
    query_llm apiNoneText "dc" "JSON" "q" = ("Error: " ++ noneStripMsg, 0) :=
  (query_llm_text_postprocessing apiNoneText "dc" "JSON" "q" none 3 rfl).1

/-- C10: construction succeeds exactly when the file exists and its suffix is
the exact lowercase string ".json"; a missing file raises FileNotFoundError
even when the suffix is also wrong (existence is checked first), and an
existing file with suffix ".JSON" or ".Json" raises ValueError. -/
theorem init_validation_spec (pathExists : Bool) (p : PyPath) :
    (TOONParsingTest_init pathExists p = none ↔ pathExists = true ∧ p.suffix = ".json")
    ∧ (pathExists = false → TOONParsingTest_init pathExists p = some .fileNotFound)
    ∧ (pathExists = true → p.suffix ≠ ".json" →
        TOONParsingTest_init pathExists p = some .valueError)
    ∧ TOONParsingTest_init true { parent := "d", stem := "x", suffix := ".JSON" }
        = some .valueError
    ∧ TOONParsingTest_init true { parent := "d", stem := "x", suffix := ".Json" }
        = some .valueError
    ∧ TOONParsingTest_init false { parent := "d", stem := "x", suffix := ".JSON" }
        = some .fileNotFound := by
  refine ⟨?_, ?_, ?_, by decide, by decide, by decide⟩
  · cases pathExists <;> simp [TOONParsingTest_init]
  · intro h
    subst h
    simp [TOONParsingTest_init]
  · intro h hs
    subst h
    simp [TOONParsingTest_init]
    exact hs

end ToonLab
